import Mathlib

/-!
Verification of the IV-inference core of the `mon` repository.

The embedding follows `src/appraisal.py` and `src/pokemon.py`.  The modules
`iv` and `species` are consumed by `pokemon.py` but are not part of the
sources; the pieces of their behaviour that the development needs
(candidate generation, level advancement, the quality percentage, and the
external stat tables) are modelled from the specification and are marked
as such in their doc comments.
-/

/-- Base stats of a species: static record of base (attack, defense,
stamina) integers, per the data model. -/
structure Species where
  att : Nat
  dfn : Nat
  sta : Nat
deriving DecidableEq

/-- A hidden-stat candidate: the three hidden stat values together with the
level index that selects the CP multiplier.  Mirrors the `iv` objects that
`pokemon.py` manipulates (fields `att`, `dfn`, `sta`, and the level behind
`cp_scalar`). -/
structure IV where
  att : Nat
  dfn : Nat
  sta : Nat
  level : Nat
deriving DecidableEq

/-- Modelled from the spec: the external collaborators of the core, which
are not under `src/` — the CP-multiplier table (`level_index -> multiplier
(rational >= 0)`), the maximum modeled level, and the dust-cost to
starting-levels table used by the candidate generator. -/
structure Env where
  cpMult : Nat → ℝ
  cpMult_nonneg : ∀ l, 0 ≤ cpMult l
  maxLevel : Nat
  dustLevels : Int → Bool → Finset Nat

/-- The error outcomes of the embedded computations: `levelOutOfRange` for
a growth step past the maximum modeled level, `nameError` for a use of an
unassigned working variable in `calc_ivs`, and `emptySet` for requesting a
range over an empty candidate set. -/
inductive Err where
  | levelOutOfRange
  | nameError
  | emptySet
deriving DecidableEq

/-- Modelled from the spec: a candidate's overall quality percentage,
`(att+dfn+sta) / (3*MAX_IV) * 100` with `MAX_IV = 15` (the `percentage`
attribute of the missing `iv` module). -/
def ivPercentage (iv : IV) : ℚ :=
  (iv.att + iv.dfn + iv.sta : ℚ) / (3 * 15) * 100

/-- The four overall-appraisal bands of `appraisal.py` (enum aliases
collapse to one value per band). -/
inductive OverallAppraisal where
  | wonder
  | attention
  | average
  | likely
deriving DecidableEq

/-- The four dominant-stat bands of `appraisal.py`. -/
inductive TopIV where
  | exceed
  | impressed
  | trending
  | norm
deriving DecidableEq

/-- `OVERALL_APPRAISAL_MINIMUM_PERCENTS` from `appraisal.py`. -/
def OVERALL_APPRAISAL_MINIMUM_PERCENTS : OverallAppraisal → ℚ
  | .wonder => 82.2
  | .attention => 66.7
  | .average => 51.1
  | .likely => 0

/-- `OVERALL_APPRAISAL_MAXIMUM_PERCENTS` from `appraisal.py`. -/
def OVERALL_APPRAISAL_MAXIMUM_PERCENTS : OverallAppraisal → ℚ
  | .wonder => 100
  | .attention => 80
  | .average => 64.4
  | .likely => 48.9

/-- `IV_APPRAISAL_MINIMUM_VALUE` from `appraisal.py`. -/
def IV_APPRAISAL_MINIMUM_VALUE : TopIV → Nat
  | .exceed => 15
  | .impressed => 13
  | .trending => 8
  | .norm => 0

/-- `IV_APPRAISAL_MAXIMUM_VALUE` from `appraisal.py`. -/
def IV_APPRAISAL_MAXIMUM_VALUE : TopIV → Nat
  | .exceed => 15
  | .impressed => 14
  | .trending => 12
  | .norm => 7

/-- The `Appraisal` namedtuple of `appraisal.py`; the positional field
order is `(overall, top_att, top_dfn, top_hp, top_iv)` exactly as in the
source. -/
structure Appraisal where
  overall : OverallAppraisal
  top_att : Bool
  top_dfn : Bool
  top_hp : Bool
  top_iv : TopIV
deriving DecidableEq

/-- The local `top_iv = max(iv.att, iv.dfn, iv.sta)` computed at line 100
of `appraisal.py`. -/
def topStat (iv : IV) : Nat :=
  max iv.att (max iv.dfn iv.sta)

/-- `Appraisal.valid_iv` from `appraisal.py`, lines 94-120: the chain of
early `return False` checks, then `return True`. -/
def Appraisal.valid_iv (a : Appraisal) (iv : IV) : Bool :=
  if ivPercentage iv < OVERALL_APPRAISAL_MINIMUM_PERCENTS a.overall then false
  else if OVERALL_APPRAISAL_MAXIMUM_PERCENTS a.overall < ivPercentage iv then false
  else if topStat iv < IV_APPRAISAL_MINIMUM_VALUE a.top_iv then false
  else if IV_APPRAISAL_MAXIMUM_VALUE a.top_iv < topStat iv then false
  else if a.top_att = true ∧ topStat iv ≠ iv.att then false
  else if a.top_att = false ∧ topStat iv = iv.att then false
  else if a.top_dfn = true ∧ topStat iv ≠ iv.dfn then false
  else if a.top_dfn = false ∧ topStat iv = iv.dfn then false
  else if a.top_hp = true ∧ topStat iv ≠ iv.sta then false
  else if a.top_hp = false ∧ topStat iv = iv.sta then false
  else true

/-- Python `int()` applied to a real value: truncation toward zero. -/
noncomputable def pyInt (x : ℝ) : Int :=
  if 0 ≤ x then ⌊x⌋ else ⌈x⌉

/-- `Pokemon.calc_cp` from `pokemon.py`, lines 175-186:
`int((species.att + iv.att) * sqrt(species.dfn + iv.dfn) *
sqrt(species.sta + iv.sta) * iv.cp_scalar / 10)` capped below by
`max(cp, 10)`.  The candidate's `cp_scalar` is the CP-multiplier table
entry at its level index. -/
noncomputable def Pokemon.calc_cp (env : Env) (sp : Species) (iv : IV) : Int :=
  max (pyInt (((sp.att : ℝ) + iv.att) * Real.sqrt ((sp.dfn : ℝ) + iv.dfn) *
              Real.sqrt ((sp.sta : ℝ) + iv.sta) * env.cpMult iv.level / 10)) 10

/-- `Pokemon.calc_hp` from `pokemon.py`, lines 188-194:
`int((species.sta + iv.sta) * sqrt(iv.cp_scalar))` capped below by
`max(hp, 10)`. -/
noncomputable def Pokemon.calc_hp (env : Env) (sp : Species) (iv : IV) : Int :=
  max (pyInt (((sp.sta : ℝ) + iv.sta) * Real.sqrt (env.cpMult iv.level))) 10

/-- The three snapshot variants of `pokemon.py` (`StartSnapshot`,
`PowerUpSnapshot`, `EvolutionSnapshot`) as a sum type. -/
inductive Snapshot where
  | start (species : Species) (cp hp dust : Int) (half_levels : Bool)
  | powerUp (cp hp dust : Int) (power_ups : Nat)
  | evolution (species : Species) (cp hp dust : Int) (power_ups : Nat)
deriving DecidableEq

/-- Whether a snapshot is a `StartSnapshot`. -/
def Snapshot.isStart : Snapshot → Bool
  | .start _ _ _ _ _ => true
  | _ => false

/-- The species attribute of a snapshot, when the variant carries one
(`PowerUpSnapshot` does not). -/
def snapSpecies : Snapshot → Option Species
  | .start sp _ _ _ _ => some sp
  | .powerUp _ _ _ _ => none
  | .evolution sp _ _ _ _ => some sp

/-- The `Pokemon.species` property from `pokemon.py`, lines 149-155: walk
the snapshot list in reverse and return the first species attribute
found. -/
def Pokemon.speciesProp : List Snapshot → Option Species
  | [] => none
  | snap :: rest =>
    match Pokemon.speciesProp rest with
    | some sp => some sp
    | none => snapSpecies snap

/-- Whether the first element of a snapshot list is a `StartSnapshot`
(false as well for the empty list). -/
def firstIsStart : List Snapshot → Bool
  | [] => false
  | snap :: _ => snap.isStart

/-- Modelled from the spec: `iv.IV.possible_ivs(dust, half_levels)` of the
missing `iv` module — every (attack, defense, stamina) in `[0,15]^3`
crossed with every starting level the dust cost maps to. -/
def possible_ivs (env : Env) (dust : Int) (hl : Bool) : Finset IV :=
  (env.dustLevels dust hl).biUnion fun l =>
    (Finset.range 16).biUnion fun a =>
      (Finset.range 16).biUnion fun d =>
        (Finset.range 16).image fun s => ⟨a, d, s, l⟩

/-- Modelled from the spec: `iv.increment_level(steps)` of the missing
`iv` module — advance the level index by the growth-step count, failing
with an OutOfRange error if the resulting level exceeds the maximum
modeled level. -/
def increment_level (env : Env) (iv : IV) (n : Nat) : Except Err IV :=
  if iv.level + n ≤ env.maxLevel then .ok ⟨iv.att, iv.dfn, iv.sta, iv.level + n⟩
  else .error .levelOutOfRange

/-- The set comprehension `{iv.increment_level(snapshot.power_ups) for iv
in possible_ivs}` at lines 210-211 of `pokemon.py`: if any element's
advance raises, the whole comprehension raises; otherwise the result is
the image of the advancing map. -/
def advanceSet (env : Env) (s : Finset IV) (n : Nat) : Except Err (Finset IV) :=
  if ∀ iv ∈ s, iv.level + n ≤ env.maxLevel then
    .ok (s.image fun iv => ⟨iv.att, iv.dfn, iv.sta, iv.level + n⟩)
  else .error .levelOutOfRange

/-- The observation-filter comprehension at lines 213-215 of `pokemon.py`:
keep the candidates whose simulated CP and HP both equal the snapshot's
observed values. -/
noncomputable def obsFilter (env : Env) (sp : Species) (s : Finset IV) (cp hp : Int) : Finset IV :=
  s.filter fun iv => Pokemon.calc_cp env sp iv = cp ∧ Pokemon.calc_hp env sp iv = hp

/-- The observation filter as executed with the `species` working variable
of `calc_ivs`: with a species in scope it filters; with the variable still
unassigned the comprehension body is never reached when the set is empty,
and raises a NameError otherwise. -/
noncomputable def filterStep (env : Env) (os : Option Species) (s : Finset IV) (cp hp : Int) :
    Except Err (Finset IV) :=
  match os with
  | some sp => .ok (obsFilter env sp s cp hp)
  | none => if s = ∅ then .ok ∅ else .error .nameError

/-- One iteration of the `for snapshot in self.snapshots` loop of
`Pokemon.calc_ivs` (lines 197-215), acting on the working state
(current species, current candidate set); a working variable that is
read before any assignment surfaces as `nameError`. -/
noncomputable def stepSnap (env : Env) (st : Option Species × Option (Finset IV)) :
    Snapshot → Except Err (Option Species × Option (Finset IV))
  | .start sp cp hp dust hl =>
    (filterStep env (some sp) (possible_ivs env dust hl) cp hp).map fun s' => (some sp, some s')
  | .powerUp cp hp _dust n =>
    match st.2 with
    | none => .error .nameError
    | some cur =>
      (advanceSet env cur n).bind fun adv =>
        (filterStep env st.1 adv cp hp).map fun s' => (st.1, some s')
  | .evolution sp cp hp _dust n =>
    match st.2 with
    | none => .error .nameError
    | some cur =>
      (advanceSet env cur n).bind fun adv =>
        (filterStep env (some sp) adv cp hp).map fun s' => (some sp, some s')

/-- The snapshot loop of `Pokemon.calc_ivs`, threading the working state
through the timeline; an exception from any iteration propagates. -/
noncomputable def runSnaps (env : Env) (st : Option Species × Option (Finset IV)) :
    List Snapshot → Except Err (Option Species × Option (Finset IV))
  | [] => .ok st
  | snap :: rest =>
    match stepSnap env st snap with
    | .error e => .error e
    | .ok st' => runSnaps env st' rest

/-- The tail of `Pokemon.calc_ivs` (lines 217-221): if an appraisal is
attached, keep only the candidates it accepts, then return the working
set; returning a never-assigned working set is a NameError. -/
noncomputable def finishIvs (app : Option Appraisal)
    (st : Option Species × Option (Finset IV)) : Except Err (Finset IV) :=
  match st.2 with
  | none => .error .nameError
  | some s =>
    match app with
    | none => .ok s
    | some a => .ok (s.filter fun iv => a.valid_iv iv = true)

/-- `Pokemon.calc_ivs` from `pokemon.py`, lines 196-221: run the snapshot
loop from unassigned working variables, then finish with the optional
appraisal filter. -/
noncomputable def Pokemon.calc_ivs (env : Env) (snaps : List Snapshot) (app : Option Appraisal) :
    Except Err (Finset IV) :=
  match runSnaps env (none, none) snaps with
  | .error e => .error e
  | .ok st => finishIvs app st

/-- `Pokemon.appraise` from `pokemon.py`, lines 145-147: build an
`Appraisal` by passing `(overall, top_hp, top_att, top_dfn, top_iv)`
positionally into the namedtuple constructor. -/
def Pokemon.appraise (overall : OverallAppraisal) (top_hp top_att top_dfn : Bool)
    (top_iv : TopIV) : Appraisal :=
  ⟨overall, top_hp, top_att, top_dfn, top_iv⟩

/-- `Pokemon.percentage_range` from `pokemon.py`, lines 223-227:
`min(...)`/`max(...)` over the percentages of the inferred candidates;
Python's `min`/`max` raise on an empty iterable, modelled as the
`emptySet` error. -/
noncomputable def Pokemon.percentage_range (env : Env) (snaps : List Snapshot)
    (app : Option Appraisal) : Except Err (ℚ × ℚ) :=
  match Pokemon.calc_ivs env snaps app with
  | .error e => .error e
  | .ok ivs =>
    if h : ivs.Nonempty then
      .ok ((ivs.image ivPercentage).min' (h.image ivPercentage),
           (ivs.image ivPercentage).max' (h.image ivPercentage))
    else .error .emptySet

/-- The range of §4.5 of the spec, as a function of the final candidate
set: `EmptySet` on the empty set, otherwise the (min, max) pair of quality
percentages over the set. -/
noncomputable def rangeResult (s : Finset IV) : Except Err (ℚ × ℚ) :=
  if h : s.Nonempty then
    .ok ((s.image ivPercentage).min' (h.image ivPercentage),
         (s.image ivPercentage).max' (h.image ivPercentage))
  else .error .emptySet

/-- First-or-default on optional species: the value threaded through the
loop when the left operand records the latest assignment. -/
def orDefault (o d : Option Species) : Option Species :=
  match o with
  | some sp => some sp
  | none => d

/-- A concrete species for concrete evaluations. -/
def sp0 : Species := ⟨1, 1, 1⟩

/-- A concrete appraisal statement for concrete evaluations. -/
def a0 : Appraisal := ⟨.wonder, true, false, false, .exceed⟩

/-- A concrete external environment: zero CP multiplier everywhere, two
reachable starting levels, maximum modeled level 1. -/
noncomputable def env2 : Env := ⟨fun _ => 0, fun _ => le_refl 0, 1, fun _ _ => {0, 1}⟩

/-- A concrete external environment: zero CP multiplier everywhere, one
reachable starting level, maximum modeled level 0. -/
noncomputable def env3 : Env := ⟨fun _ => 0, fun _ => le_refl 0, 0, fun _ _ => {0}⟩

/-- A concrete timeline whose power-up step overflows the maximum modeled
level for part of the candidate set. -/
def snaps2 : List Snapshot := [.start sp0 10 10 400 false, .powerUp 10 10 300 1]

/-- A concrete timeline whose single observation empties the candidate
set. -/
def snaps3 : List Snapshot := [.start sp0 11 10 400 false]

set_option maxHeartbeats 2000000 in
/-- Characterization of `Appraisal.valid_iv` as a conjunction of band
membership and exact dominant-flag agreement. -/
theorem valid_iv_characterization (a : Appraisal) (iv : IV) :
    a.valid_iv iv = true ↔
      (OVERALL_APPRAISAL_MINIMUM_PERCENTS a.overall ≤ ivPercentage iv ∧
       ivPercentage iv ≤ OVERALL_APPRAISAL_MAXIMUM_PERCENTS a.overall ∧
       IV_APPRAISAL_MINIMUM_VALUE a.top_iv ≤ topStat iv ∧
       topStat iv ≤ IV_APPRAISAL_MAXIMUM_VALUE a.top_iv ∧
       (a.top_att = true ↔ iv.att = topStat iv) ∧
       (a.top_dfn = true ↔ iv.dfn = topStat iv) ∧
       (a.top_hp = true ↔ iv.sta = topStat iv)) := by
  unfold Appraisal.valid_iv
  split_ifs with h1 h2 h3 h4 h5 h6 h7 h8 h9 h10
  · simp only [false_iff]
    rintro ⟨p1, -⟩
    exact absurd h1 (not_lt.mpr p1)
  · simp only [false_iff]
    rintro ⟨-, p2, -⟩
    exact absurd h2 (not_lt.mpr p2)
  · simp only [false_iff]
    rintro ⟨-, -, p3, -⟩
    exact absurd h3 (not_lt.mpr p3)
  · simp only [false_iff]
    rintro ⟨-, -, -, p4, -⟩
    exact absurd h4 (not_lt.mpr p4)
  · simp only [false_iff]
    rintro ⟨-, -, -, -, pA, -⟩
    exact h5.2 (pA.mp h5.1).symm
  · simp only [false_iff]
    rintro ⟨-, -, -, -, pA, -⟩
    exact absurd (pA.mpr h6.2.symm) (by simp [h6.1])
  · simp only [false_iff]
    rintro ⟨-, -, -, -, -, pD, -⟩
    exact h7.2 (pD.mp h7.1).symm
  · simp only [false_iff]
    rintro ⟨-, -, -, -, -, pD, -⟩
    exact absurd (pD.mpr h8.2.symm) (by simp [h8.1])
  · simp only [false_iff]
    rintro ⟨-, -, -, -, -, -, pH⟩
    exact h9.2 (pH.mp h9.1).symm
  · simp only [false_iff]
    rintro ⟨-, -, -, -, -, -, pH⟩
    exact absurd (pH.mpr h10.2.symm) (by simp [h10.1])
  · simp only [true_iff]
    refine ⟨not_lt.mp h1, not_lt.mp h2, not_lt.mp h3, not_lt.mp h4, ?_, ?_, ?_⟩
    · constructor
      · intro hT
        by_contra hne
        exact h5 ⟨hT, fun he => hne he.symm⟩
      · intro he
        by_contra hne
        exact h6 ⟨by simpa using hne, he.symm⟩
    · constructor
      · intro hT
        by_contra hne
        exact h7 ⟨hT, fun he => hne he.symm⟩
      · intro he
        by_contra hne
        exact h8 ⟨by simpa using hne, he.symm⟩
    · constructor
      · intro hT
        by_contra hne
        exact h9 ⟨hT, fun he => hne he.symm⟩
      · intro he
        by_contra hne
        exact h10 ⟨by simpa using hne, he.symm⟩

theorem pyInt_of_nonneg (x : ℝ) (h : 0 ≤ x) : pyInt x = ⌊x⌋ := by
  unfold pyInt
  rw [if_pos h]

theorem cp_expr_nonneg (env : Env) (sp : Species) (iv : IV) :
    0 ≤ ((sp.att : ℝ) + iv.att) * Real.sqrt ((sp.dfn : ℝ) + iv.dfn) *
        Real.sqrt ((sp.sta : ℝ) + iv.sta) * env.cpMult iv.level / 10 := by
  apply div_nonneg _ (by norm_num)
  exact mul_nonneg
    (mul_nonneg (mul_nonneg (by positivity) (Real.sqrt_nonneg _)) (Real.sqrt_nonneg _))
    (env.cpMult_nonneg _)

theorem hp_expr_nonneg (env : Env) (sp : Species) (iv : IV) :
    0 ≤ ((sp.sta : ℝ) + iv.sta) * Real.sqrt (env.cpMult iv.level) := by
  exact mul_nonneg (by positivity) (Real.sqrt_nonneg _)

theorem calc_cp_eq_floor (env : Env) (sp : Species) (iv : IV) :
    Pokemon.calc_cp env sp iv =
      max ⌊((sp.att : ℝ) + iv.att) * Real.sqrt ((sp.dfn : ℝ) + iv.dfn) *
          Real.sqrt ((sp.sta : ℝ) + iv.sta) * env.cpMult iv.level / 10⌋ 10 := by
  unfold Pokemon.calc_cp
  rw [pyInt_of_nonneg _ (cp_expr_nonneg env sp iv)]

theorem calc_hp_eq_floor (env : Env) (sp : Species) (iv : IV) :
    Pokemon.calc_hp env sp iv =
      max ⌊((sp.sta : ℝ) + iv.sta) * Real.sqrt (env.cpMult iv.level)⌋ 10 := by
  unfold Pokemon.calc_hp
  rw [pyInt_of_nonneg _ (hp_expr_nonneg env sp iv)]

theorem calc_cp_zeroMult (env : Env) (h : ∀ l, env.cpMult l = 0) (sp : Species) (iv : IV) :
    Pokemon.calc_cp env sp iv = 10 := by
  rw [calc_cp_eq_floor, h, mul_zero, zero_div, Int.floor_zero]
  norm_num

theorem calc_hp_zeroMult (env : Env) (h : ∀ l, env.cpMult l = 0) (sp : Species) (iv : IV) :
    Pokemon.calc_hp env sp iv = 10 := by
  rw [calc_hp_eq_floor, h, Real.sqrt_zero, mul_zero, Int.floor_zero]
  norm_num

theorem obsFilter_zeroMult_all (env : Env) (h : ∀ l, env.cpMult l = 0) (sp : Species)
    (s : Finset IV) : obsFilter env sp s 10 10 = s :=
  Finset.filter_true_of_mem fun iv _ =>
    ⟨calc_cp_zeroMult env h sp iv, calc_hp_zeroMult env h sp iv⟩

theorem obsFilter_zeroMult_none (env : Env) (h : ∀ l, env.cpMult l = 0) (sp : Species)
    (s : Finset IV) : obsFilter env sp s 11 10 = ∅ :=
  Finset.filter_false_of_mem fun iv _ hc => by
    rw [calc_cp_zeroMult env h sp iv] at hc
    exact absurd hc.1 (by norm_num)

theorem mem_possible_ivs (env : Env) (dust : Int) (hl : Bool) (iv : IV) :
    iv ∈ possible_ivs env dust hl ↔
      iv.level ∈ env.dustLevels dust hl ∧ iv.att < 16 ∧ iv.dfn < 16 ∧ iv.sta < 16 := by
  obtain ⟨a, d, s, l⟩ := iv
  simp only [possible_ivs, Finset.mem_biUnion, Finset.mem_image, Finset.mem_range]
  constructor
  · rintro ⟨l', hl', a', ha', d', hd', s', hs', heq⟩
    injection heq with e1 e2 e3 e4
    subst e1
    subst e2
    subst e3
    subst e4
    exact ⟨hl', ha', hd', hs'⟩
  · rintro ⟨h1, h2, h3, h4⟩
    exact ⟨l, h1, a, h2, d, h3, s, h4, rfl⟩

theorem stepSnap_start (env : Env) (st : Option Species × Option (Finset IV)) (sp : Species)
    (cp hp dust : Int) (hl : Bool) :
    stepSnap env st (.start sp cp hp dust hl) =
      .ok (some sp, some (obsFilter env sp (possible_ivs env dust hl) cp hp)) := rfl

theorem advanceSet_ok_card (env : Env) (s : Finset IV) (n : Nat) (t : Finset IV)
    (h : advanceSet env s n = .ok t) : t.card ≤ s.card := by
  unfold advanceSet at h
  split at h
  · injection h with h'
    subst h'
    exact Finset.card_image_le
  · cases h

theorem advanceSet_error_eq (env : Env) (s : Finset IV) (n : Nat) (e : Err)
    (h : advanceSet env s n = .error e) : e = .levelOutOfRange := by
  unfold advanceSet at h
  split at h
  · cases h
  · injection h with h'
    exact h'.symm

theorem filterStep_ok_card (env : Env) (os : Option Species) (s : Finset IV) (cp hp : Int)
    (t : Finset IV) (h : filterStep env os s cp hp = .ok t) : t.card ≤ s.card := by
  cases os with
  | some sp =>
    rw [show filterStep env (some sp) s cp hp = .ok (obsFilter env sp s cp hp) from rfl] at h
    injection h with h'
    subst h'
    exact Finset.card_filter_le _ _
  | none =>
    unfold filterStep at h
    by_cases hs : s = ∅
    · rw [if_pos hs] at h
      injection h with h'
      subst h'
      simp
    · rw [if_neg hs] at h
      cases h

theorem filterStep_some_eq (env : Env) (sp : Species) (s : Finset IV) (cp hp : Int) :
    filterStep env (some sp) s cp hp = .ok (obsFilter env sp s cp hp) := rfl

theorem stepSnap_powerUp_eq (env : Env) (os : Option Species) (s : Finset IV)
    (cp hp dust : Int) (n : Nat) :
    stepSnap env (os, some s) (.powerUp cp hp dust n) =
      (advanceSet env s n).bind fun adv =>
        (filterStep env os adv cp hp).map fun s' => (os, some s') := rfl

theorem stepSnap_evolution_eq (env : Env) (os : Option Species) (s : Finset IV) (sp : Species)
    (cp hp dust : Int) (n : Nat) :
    stepSnap env (os, some s) (.evolution sp cp hp dust n) =
      (advanceSet env s n).bind fun adv =>
        (filterStep env (some sp) adv cp hp).map fun s' => (some sp, some s') := rfl

theorem ebind_error {a b : Type} (e : Err) (f : a → Except Err b) :
    (Except.error e : Except Err a).bind f = .error e := rfl

theorem ebind_ok {a b : Type} (x : a) (f : a → Except Err b) :
    (Except.ok x : Except Err a).bind f = f x := rfl

theorem emap_error {a b : Type} (e : Err) (f : a → b) :
    Except.map f (Except.error e : Except Err a) = .error e := rfl

theorem emap_ok {a b : Type} (x : a) (f : a → b) :
    Except.map f (Except.ok x : Except Err a) = .ok (f x) := rfl

theorem stepSnap_good (env : Env) (sp : Species) (s : Finset IV) (snap : Snapshot) :
    (∀ e, stepSnap env (some sp, some s) snap = .error e → e = .levelOutOfRange) ∧
    (∀ st', stepSnap env (some sp, some s) snap = .ok st' →
      ∃ sp' s', st' = (some sp', some s')) := by
  cases snap with
  | start sp2 cp hp dust hl =>
    rw [stepSnap_start]
    constructor
    · intro e h
      cases h
    · intro st' h
      injection h with h'
      exact ⟨sp2, _, h'.symm⟩
  | powerUp cp hp dust n =>
    rw [stepSnap_powerUp_eq]
    cases hadv : advanceSet env s n with
    | error e' =>
      rw [ebind_error]
      constructor
      · intro e h
        injection h with h'
        rw [← h']
        exact advanceSet_error_eq env s n e' hadv
      · intro st' h
        cases h
    | ok adv =>
      rw [ebind_ok, filterStep_some_eq, emap_ok]
      constructor
      · intro e h
        cases h
      · intro st' h
        injection h with h'
        exact ⟨sp, _, h'.symm⟩
  | evolution sp2 cp hp dust n =>
    rw [stepSnap_evolution_eq]
    cases hadv : advanceSet env s n with
    | error e' =>
      rw [ebind_error]
      constructor
      · intro e h
        injection h with h'
        rw [← h']
        exact advanceSet_error_eq env s n e' hadv
      · intro st' h
        cases h
    | ok adv =>
      rw [ebind_ok, filterStep_some_eq, emap_ok]
      constructor
      · intro e h
        cases h
      · intro st' h
        injection h with h'
        exact ⟨sp2, _, h'.symm⟩

theorem runSnaps_good (env : Env) (l : List Snapshot) :
    ∀ (sp : Species) (s : Finset IV),
      (runSnaps env (some sp, some s) l ≠ .error .nameError) ∧
      (∀ st', runSnaps env (some sp, some s) l = .ok st' →
        ∃ sp' s', st' = (some sp', some s')) := by
  induction l with
  | nil =>
    intro sp s
    constructor
    · intro h
      cases h
    · intro st' h
      injection h with h'
      exact ⟨sp, s, h'.symm⟩
  | cons snap rest ih =>
    intro sp s
    constructor
    · intro h
      unfold runSnaps at h
      cases hstep : stepSnap env (some sp, some s) snap with
      | error e =>
        rw [hstep] at h
        injection h with h'
        subst h'
        exact absurd ((stepSnap_good env sp s snap).1 _ hstep) (by simp)
      | ok mid =>
        rw [hstep] at h
        obtain ⟨sp', s', hmid⟩ := (stepSnap_good env sp s snap).2 mid hstep
        subst hmid
        exact (ih sp' s').1 h
    · intro st' h
      unfold runSnaps at h
      cases hstep : stepSnap env (some sp, some s) snap with
      | error e =>
        rw [hstep] at h
        cases h
      | ok mid =>
        rw [hstep] at h
        obtain ⟨sp', s', hmid⟩ := (stepSnap_good env sp s snap).2 mid hstep
        subst hmid
        exact (ih sp' s').2 st' h

theorem stepSnap_species (env : Env) (st : Option Species × Option (Finset IV))
    (snap : Snapshot) (mid : Option Species × Option (Finset IV))
    (h : stepSnap env st snap = .ok mid) :
    mid.1 = orDefault (snapSpecies snap) st.1 := by
  cases snap with
  | start sp cp hp dust hl =>
    rw [stepSnap_start] at h
    injection h with h'
    rw [← h']
    rfl
  | powerUp cp hp dust n =>
    obtain ⟨os, oset⟩ := st
    cases oset with
    | none => cases h
    | some cur =>
      rw [stepSnap_powerUp_eq] at h
      cases hadv : advanceSet env cur n with
      | error e' =>
        rw [hadv, ebind_error] at h
        cases h
      | ok adv =>
        rw [hadv, ebind_ok] at h
        cases hf : filterStep env os adv cp hp with
        | error e' =>
          rw [hf, emap_error] at h
          cases h
        | ok s' =>
          rw [hf, emap_ok] at h
          injection h with h'
          rw [← h']
          rfl
  | evolution sp cp hp dust n =>
    obtain ⟨os, oset⟩ := st
    cases oset with
    | none => cases h
    | some cur =>
      rw [stepSnap_evolution_eq] at h
      cases hadv : advanceSet env cur n with
      | error e' =>
        rw [hadv, ebind_error] at h
        cases h
      | ok adv =>
        rw [hadv, ebind_ok, filterStep_some_eq, emap_ok] at h
        injection h with h'
        rw [← h']
        rfl

theorem orDefault_assoc (o1 o2 d : Option Species) :
    orDefault o1 (orDefault o2 d) = orDefault (orDefault o1 o2) d := by
  cases o1 <;> cases o2 <;> rfl

theorem speciesProp_cons (snap : Snapshot) (rest : List Snapshot) :
    Pokemon.speciesProp (snap :: rest) =
      orDefault (Pokemon.speciesProp rest) (snapSpecies snap) := rfl

theorem runSnaps_species (env : Env) (l : List Snapshot) :
    ∀ (st st' : Option Species × Option (Finset IV)),
      runSnaps env st l = .ok st' →
      st'.1 = orDefault (Pokemon.speciesProp l) st.1 := by
  induction l with
  | nil =>
    intro st st' h
    injection h with h'
    rw [← h']
    rfl
  | cons snap rest ih =>
    intro st st' h
    unfold runSnaps at h
    cases hstep : stepSnap env st snap with
    | error e =>
      rw [hstep] at h
      cases h
    | ok mid =>
      rw [hstep] at h
      have h1 := ih mid st' h
      have h2 := stepSnap_species env st snap mid hstep
      rw [h1, h2, orDefault_assoc, speciesProp_cons]

theorem runSnaps_nil (env : Env) (st : Option Species × Option (Finset IV)) :
    runSnaps env st [] = .ok st := rfl

theorem runSnaps_cons (env : Env) (st : Option Species × Option (Finset IV))
    (snap : Snapshot) (rest : List Snapshot) :
    runSnaps env st (snap :: rest) =
      match stepSnap env st snap with
      | .error e => .error e
      | .ok st' => runSnaps env st' rest := rfl

theorem runSnaps_env3_eq : runSnaps env3 (none, none) snaps3 = .ok (some sp0, some ∅) := by
  have hstep : stepSnap env3 (none, none) (.start sp0 11 10 400 false) =
      .ok (some sp0, some ∅) := by
    rw [stepSnap_start, obsFilter_zeroMult_none env3 (fun _ => rfl) sp0]
  show runSnaps env3 (none, none) (Snapshot.start sp0 11 10 400 false :: []) = _
  rw [runSnaps_cons, hstep]
  rfl

theorem advanceSet_env2_full :
    advanceSet env2 (possible_ivs env2 400 false) 1 = .error .levelOutOfRange := by
  have hnot : ¬ ∀ iv ∈ possible_ivs env2 400 false, iv.level + 1 ≤ env2.maxLevel := by
    intro hall
    have hmem : (⟨0, 0, 0, 1⟩ : IV) ∈ possible_ivs env2 400 false := by
      rw [mem_possible_ivs]
      refine ⟨?_, by norm_num, by norm_num, by norm_num⟩
      simp [env2]
    have h2 := hall _ hmem
    simp [env2] at h2
  unfold advanceSet
  rw [if_neg hnot]

theorem runSnaps_env2_first :
    runSnaps env2 (none, none) [Snapshot.start sp0 10 10 400 false] =
      .ok (some sp0, some (possible_ivs env2 400 false)) := by
  have hstep : stepSnap env2 (none, none) (.start sp0 10 10 400 false) =
      .ok (some sp0, some (possible_ivs env2 400 false)) := by
    rw [stepSnap_start, obsFilter_zeroMult_all env2 (fun _ => rfl) sp0]
  rw [runSnaps_cons, hstep]
  rfl

theorem runSnaps_env2_eq : runSnaps env2 (none, none) snaps2 = .error .levelOutOfRange := by
  have hstep1 : stepSnap env2 (none, none) (.start sp0 10 10 400 false) =
      .ok (some sp0, some (possible_ivs env2 400 false)) := by
    rw [stepSnap_start, obsFilter_zeroMult_all env2 (fun _ => rfl) sp0]
  have hstep2 : stepSnap env2 (some sp0, some (possible_ivs env2 400 false))
      (.powerUp 10 10 300 1) = .error .levelOutOfRange := by
    rw [stepSnap_powerUp_eq, advanceSet_env2_full, ebind_error]
  show runSnaps env2 (none, none)
      (Snapshot.start sp0 10 10 400 false :: Snapshot.powerUp 10 10 300 1 :: []) = _
  rw [runSnaps_cons, hstep1]
  show runSnaps env2 (some sp0, some (possible_ivs env2 400 false))
      (Snapshot.powerUp 10 10 300 1 :: []) = _
  rw [runSnaps_cons, hstep2]

theorem calc_ivs_of_runSnaps_error (env : Env) (snaps : List Snapshot)
    (app : Option Appraisal) (e : Err) (h : runSnaps env (none, none) snaps = .error e) :
    Pokemon.calc_ivs env snaps app = .error e := by
  unfold Pokemon.calc_ivs
  rw [h]

theorem calc_ivs_of_runSnaps_ok_no_app (env : Env) (snaps : List Snapshot)
    (os : Option Species) (s : Finset IV)
    (h : runSnaps env (none, none) snaps = .ok (os, some s)) :
    Pokemon.calc_ivs env snaps none = .ok s := by
  unfold Pokemon.calc_ivs
  rw [h]
  rfl

theorem calc_ivs_of_runSnaps_ok_app (env : Env) (snaps : List Snapshot)
    (os : Option Species) (s : Finset IV) (a : Appraisal)
    (h : runSnaps env (none, none) snaps = .ok (os, some s)) :
    Pokemon.calc_ivs env snaps (some a) =
      .ok (s.filter fun iv => a.valid_iv iv = true) := by
  unfold Pokemon.calc_ivs
  rw [h]
  rfl

theorem calc_ivs_env2_eq : Pokemon.calc_ivs env2 snaps2 none = .error .levelOutOfRange :=
  calc_ivs_of_runSnaps_error env2 snaps2 none .levelOutOfRange runSnaps_env2_eq

theorem calc_ivs_env3_eq : Pokemon.calc_ivs env3 snaps3 none = .ok ∅ :=
  calc_ivs_of_runSnaps_ok_no_app env3 snaps3 (some sp0) ∅ runSnaps_env3_eq

theorem calc_ivs_env3_app_eq : Pokemon.calc_ivs env3 snaps3 (some a0) = .ok ∅ := by
  rw [calc_ivs_of_runSnaps_ok_app env3 snaps3 (some sp0) ∅ a0 runSnaps_env3_eq,
    Finset.filter_empty]

theorem stepSnap_empty_powerUp (env : Env) (sp : Species) (cp hp dust : Int) (n : Nat) :
    stepSnap env (some sp, some (∅ : Finset IV)) (.powerUp cp hp dust n) =
      .ok (some sp, some ∅) := by
  rw [stepSnap_powerUp_eq]
  have hadv : advanceSet env (∅ : Finset IV) n = .ok ∅ := by
    unfold advanceSet
    rw [if_pos]
    · rw [Finset.image_empty]
    · intro iv hiv
      exact absurd hiv (Finset.not_mem_empty iv)
  rw [hadv, ebind_ok, filterStep_some_eq, emap_ok]
  unfold obsFilter
  rw [Finset.filter_empty]

theorem increment_level_env2_ok :
    increment_level env2 ⟨0, 0, 0, 0⟩ 1 = .ok ⟨0, 0, 0, 1⟩ := by
  unfold increment_level
  rw [if_pos]
  simp [env2]

theorem increment_level_env2_err :
    increment_level env2 ⟨0, 0, 0, 1⟩ 1 = .error .levelOutOfRange := by
  unfold increment_level
  rw [if_neg]
  simp [env2]

theorem finishIvs_none_some (os : Option Species) (s : Finset IV) :
    finishIvs none (os, some s) = .ok s := rfl

theorem finishIvs_some_some (a : Appraisal) (os : Option Species) (s : Finset IV) :
    finishIvs (some a) (os, some s) = .ok (s.filter fun iv => a.valid_iv iv = true) := rfl

theorem calc_ivs_start_cons (env : Env) (sp : Species) (cp hp dust : Int) (hl : Bool)
    (rest : List Snapshot) (app : Option Appraisal) :
    Pokemon.calc_ivs env (.start sp cp hp dust hl :: rest) app =
      match runSnaps env (some sp, some (obsFilter env sp (possible_ivs env dust hl) cp hp)) rest with
      | .error e => .error e
      | .ok st => finishIvs app st := rfl

/-- C1: `Appraisal.valid_iv` accepts a candidate iff the candidate's
overall quality percentage lies in the statement's overall band (closed
interval), the maximum of the three hidden stats lies in the statement's
dominant-stat band (closed interval), and each of the three dominant-stat
booleans is true iff the corresponding stat equals that maximum; in a tie,
a statement flagging only one of the tied stats is therefore rejected. -/
theorem valid_iv_accepts_iff : ∀ (a : Appraisal) (iv : IV),
    a.valid_iv iv = true ↔
      (OVERALL_APPRAISAL_MINIMUM_PERCENTS a.overall ≤ ivPercentage iv ∧
       ivPercentage iv ≤ OVERALL_APPRAISAL_MAXIMUM_PERCENTS a.overall ∧
       IV_APPRAISAL_MINIMUM_VALUE a.top_iv ≤ topStat iv ∧
       topStat iv ≤ IV_APPRAISAL_MAXIMUM_VALUE a.top_iv ∧
       (a.top_att = true ↔ iv.att = topStat iv) ∧
       (a.top_dfn = true ↔ iv.dfn = topStat iv) ∧
       (a.top_hp = true ↔ iv.sta = topStat iv)) :=
  fun a iv => valid_iv_characterization a iv

/-- C2: the simulated CP is `floor((base_att + iv_att) * sqrt(base_dfn +
iv_dfn) * sqrt(base_sta + iv_sta) * cp_multiplier / 10)` floored to a
minimum of 10, the simulated HP is `floor((base_sta + iv_sta) *
sqrt(cp_multiplier))` floored to a minimum of 10, and the observation
filter keeps a candidate iff both simulated values equal the observed CP
and HP exactly. -/
theorem calc_formulas_and_filter : ∀ (env : Env) (sp : Species) (iv0 : IV) (s : Finset IV)
    (cp hp : Int),
    Pokemon.calc_cp env sp iv0 =
      max ⌊((sp.att : ℝ) + iv0.att) * Real.sqrt ((sp.dfn : ℝ) + iv0.dfn) *
          Real.sqrt ((sp.sta : ℝ) + iv0.sta) * env.cpMult iv0.level / 10⌋ 10 ∧
    Pokemon.calc_hp env sp iv0 =
      max ⌊((sp.sta : ℝ) + iv0.sta) * Real.sqrt (env.cpMult iv0.level)⌋ 10 ∧
    filterStep env (some sp) s cp hp = .ok (obsFilter env sp s cp hp) ∧
    (iv0 ∈ obsFilter env sp s cp hp ↔
      iv0 ∈ s ∧ Pokemon.calc_cp env sp iv0 = cp ∧ Pokemon.calc_hp env sp iv0 = hp) := by
  intro env sp iv0 s cp hp
  refine ⟨calc_cp_eq_floor env sp iv0, calc_hp_eq_floor env sp iv0,
    filterStep_some_eq env sp s cp hp, ?_⟩
  unfold obsFilter
  rw [Finset.mem_filter]

/-- C6: `Pokemon.appraise(overall, top_hp, top_att, top_dfn, top_iv)`
stores an `Appraisal` whose `top_att` field is the `top_hp` argument,
whose `top_dfn` field is the `top_att` argument, and whose `top_hp` field
is the `top_dfn` argument; consequently `valid_iv` checks the caller's
`top_hp` flag against the attack stat, `top_att` against defense, and
`top_dfn` against stamina. -/
theorem appraise_field_transposition : ∀ (o : OverallAppraisal) (thp tatt tdfn : Bool)
    (tiv : TopIV) (iv : IV),
    (Pokemon.appraise o thp tatt tdfn tiv).top_att = thp ∧
    (Pokemon.appraise o thp tatt tdfn tiv).top_dfn = tatt ∧
    (Pokemon.appraise o thp tatt tdfn tiv).top_hp = tdfn ∧
    ((Pokemon.appraise o thp tatt tdfn tiv).valid_iv iv = true ↔
      (OVERALL_APPRAISAL_MINIMUM_PERCENTS o ≤ ivPercentage iv ∧
       ivPercentage iv ≤ OVERALL_APPRAISAL_MAXIMUM_PERCENTS o ∧
       IV_APPRAISAL_MINIMUM_VALUE tiv ≤ topStat iv ∧
       topStat iv ≤ IV_APPRAISAL_MAXIMUM_VALUE tiv ∧
       (thp = true ↔ iv.att = topStat iv) ∧
       (tatt = true ↔ iv.dfn = topStat iv) ∧
       (tdfn = true ↔ iv.sta = topStat iv))) := by
  intro o thp tatt tdfn tiv iv
  exact ⟨rfl, rfl, rfl, valid_iv_characterization ⟨o, thp, tatt, tdfn, tiv⟩ iv⟩

/-- C10: an appraisal statement whose three dominant-stat booleans are all
false rejects every candidate, since the maximum always equals at least
one stat, whose unflagged equality with the maximum forces rejection. -/
theorem all_flags_false_rejects : ∀ (o : OverallAppraisal) (t : TopIV) (iv : IV),
    Appraisal.valid_iv ⟨o, false, false, false, t⟩ iv = false := by
  intro o t iv
  by_contra hb
  rw [Bool.not_eq_false, valid_iv_characterization] at hb
  obtain ⟨-, -, -, -, hA, hD, hS⟩ := hb
  have h1 : iv.att ≠ topStat iv := fun he => by cases hA.mpr he
  have h2 : iv.dfn ≠ topStat iv := fun he => by cases hD.mpr he
  have h3 : iv.sta ≠ topStat iv := fun he => by cases hS.mpr he
  unfold topStat at h1 h2 h3
  rcases max_choice iv.att (max iv.dfn iv.sta) with hM | hM
  · exact h1 hM.symm
  · rcases max_choice iv.dfn iv.sta with hm | hm
    · exact h2 (hM.trans hm).symm
    · exact h3 (hM.trans hm).symm

/-- C9: `calc_ivs` reads a working variable before assignment — and so
fails with the unbound-variable error — exactly when the timeline does not
begin with a `StartSnapshot` (in particular when it is empty); when the
first snapshot is a `StartSnapshot` the working variables are assigned
before every use and no unbound-variable error can arise. -/
theorem calc_ivs_nameError_iff : ∀ (env : Env) (snaps : List Snapshot) (app : Option Appraisal),
    Pokemon.calc_ivs env snaps app = .error .nameError ↔ firstIsStart snaps = false := by
  intro env snaps app
  constructor
  · intro h
    by_contra hns
    rw [Bool.not_eq_false] at hns
    cases snaps with
    | nil => simp [firstIsStart] at hns
    | cons snap rest =>
      cases snap with
      | start sp cp hp dust hl =>
        rw [calc_ivs_start_cons] at h
        cases hr : runSnaps env
            (some sp, some (obsFilter env sp (possible_ivs env dust hl) cp hp)) rest with
        | error e =>
          rw [hr] at h
          injection h with h'
          rw [h'] at hr
          exact (runSnaps_good env rest sp _).1 hr
        | ok st' =>
          rw [hr] at h
          obtain ⟨sp', s', hst⟩ := (runSnaps_good env rest sp _).2 st' hr
          subst hst
          cases app with
          | none =>
            have h2 : finishIvs none ((some sp' : Option Species), some s') =
                .error .nameError := h
            rw [finishIvs_none_some] at h2
            cases h2
          | some a =>
            have h2 : finishIvs (some a) ((some sp' : Option Species), some s') =
                .error .nameError := h
            rw [finishIvs_some_some] at h2
            cases h2
      | powerUp cp hp dust n => simp [firstIsStart, Snapshot.isStart] at hns
      | evolution sp cp hp dust n => simp [firstIsStart, Snapshot.isStart] at hns
  · intro h
    cases snaps with
    | nil => rfl
    | cons snap rest =>
      cases snap with
      | start sp cp hp dust hl => simp [firstIsStart, Snapshot.isStart] at h
      | powerUp cp hp dust n => rfl
      | evolution sp cp hp dust n => rfl

/-- C3 counterexample: at a concrete environment and timeline where, after
the start snapshot, part of the candidate set advances within range and
part would overflow the maximum modeled level, the whole inference aborts
with `levelOutOfRange` instead of dropping only the overflowing candidates
and continuing. -/
theorem level_overflow_aborts_cex :
    Pokemon.calc_ivs env2 snaps2 none = .error .levelOutOfRange ∧
    runSnaps env2 (none, none) [Snapshot.start sp0 10 10 400 false] =
      .ok (some sp0, some (possible_ivs env2 400 false)) ∧
    (⟨0, 0, 0, 0⟩ : IV) ∈ possible_ivs env2 400 false ∧
    (⟨0, 0, 0, 1⟩ : IV) ∈ possible_ivs env2 400 false ∧
    increment_level env2 ⟨0, 0, 0, 0⟩ 1 = .ok ⟨0, 0, 0, 1⟩ ∧
    increment_level env2 ⟨0, 0, 0, 1⟩ 1 = .error .levelOutOfRange := by
  refine ⟨calc_ivs_env2_eq, runSnaps_env2_first, ?_, ?_,
    increment_level_env2_ok, increment_level_env2_err⟩
  · rw [mem_possible_ivs]
    exact ⟨by simp [env2], by norm_num, by norm_num, by norm_num⟩
  · rw [mem_possible_ivs]
    exact ⟨by simp [env2], by norm_num, by norm_num, by norm_num⟩

/-- C3 (amended): when advancing some candidate in the current set by an
event's growth-step count would push it past the maximum modeled level,
the advancing comprehension raises `levelOutOfRange` and the whole
remaining reduction aborts with that error; the offending candidate is not
dropped individually. -/
theorem advance_overflow_aborts : ∀ (env : Env) (os : Option Species) (s : Finset IV)
    (cp hp dust : Int) (n : Nat) (sp' : Species) (rest : List Snapshot),
    (∃ iv ∈ s, env.maxLevel < iv.level + n) →
    stepSnap env (os, some s) (.powerUp cp hp dust n) = .error .levelOutOfRange ∧
    stepSnap env (os, some s) (.evolution sp' cp hp dust n) = .error .levelOutOfRange ∧
    runSnaps env (os, some s) (.powerUp cp hp dust n :: rest) = .error .levelOutOfRange := by
  intro env os s cp hp dust n sp' rest h
  have hnot : ¬ ∀ iv ∈ s, iv.level + n ≤ env.maxLevel := by
    intro hall
    obtain ⟨iv0, hmem, hlt⟩ := h
    exact absurd (hall iv0 hmem) (not_le.mpr hlt)
  have hadv : advanceSet env s n = .error .levelOutOfRange := by
    unfold advanceSet
    rw [if_neg hnot]
  have h1 : stepSnap env (os, some s) (.powerUp cp hp dust n) = .error .levelOutOfRange := by
    rw [stepSnap_powerUp_eq, hadv, ebind_error]
  refine ⟨h1, ?_, ?_⟩
  · rw [stepSnap_evolution_eq, hadv, ebind_error]
  · rw [runSnaps_cons, h1]

/-- Witness for the amended C3 theorem at a concrete input. -/
theorem advance_overflow_aborts_witness :
    (∃ iv ∈ ({⟨0, 0, 0, 1⟩} : Finset IV), env2.maxLevel < iv.level + 1) ∧
    stepSnap env2 (some sp0, some {⟨0, 0, 0, 1⟩}) (.powerUp 10 10 300 1) =
      .error .levelOutOfRange ∧
    stepSnap env2 (some sp0, some {⟨0, 0, 0, 1⟩}) (.evolution sp0 10 10 300 1) =
      .error .levelOutOfRange ∧
    runSnaps env2 (some sp0, some {⟨0, 0, 0, 1⟩}) [.powerUp 10 10 300 1] =
      .error .levelOutOfRange := by
  have hex : ∃ iv ∈ ({⟨0, 0, 0, 1⟩} : Finset IV), env2.maxLevel < iv.level + 1 := by
    refine ⟨⟨0, 0, 0, 1⟩, Finset.mem_singleton_self _, ?_⟩
    simp [env2]
  have h := advance_overflow_aborts env2 (some sp0) {⟨0, 0, 0, 1⟩} 10 10 300 1 sp0 [] hex
  exact ⟨hex, h.1, h.2.1, h.2.2⟩

/-- C4 counterexample: at a concrete timeline whose single observation
empties the candidate set, `calc_ivs` returns the plain empty set as an
ordinary successful value — a silent empty answer, with no structured
InconsistentHistory result. -/
theorem empty_silent_cex : Pokemon.calc_ivs env3 snaps3 none = .ok ∅ :=
  calc_ivs_env3_eq

/-- C4 (amended): an empty candidate set after the reduction is returned
by `calc_ivs` as the ordinary value `.ok ∅` (the appraisal filter keeps it
empty); emptiness is left for the caller to test, and no structured
InconsistentHistory result exists. -/
theorem empty_result_plain_ok : ∀ (env : Env) (snaps : List Snapshot) (app : Option Appraisal)
    (os : Option Species),
    runSnaps env (none, none) snaps = .ok (os, some ∅) →
    Pokemon.calc_ivs env snaps app = .ok ∅ := by
  intro env snaps app os h
  cases app with
  | none => exact calc_ivs_of_runSnaps_ok_no_app env snaps os ∅ h
  | some a =>
    rw [calc_ivs_of_runSnaps_ok_app env snaps os ∅ a h, Finset.filter_empty]

/-- Witness for the amended C4 theorem at a concrete input. -/
theorem empty_result_plain_ok_witness :
    runSnaps env3 (none, none) snaps3 = .ok (some sp0, some ∅) ∧
    Pokemon.calc_ivs env3 snaps3 (some a0) = .ok ∅ :=
  ⟨runSnaps_env3_eq, empty_result_plain_ok env3 snaps3 (some a0) (some sp0) runSnaps_env3_eq⟩

/-- C5: the reducer's species state after a successful run equals the
source's `species` property (the most recently established species), an
event without a species filters against that current species, and an
evolution event filters all subsequent simulation against its new
species. -/
theorem species_sticky_filtering : ∀ (env : Env) (snaps : List Snapshot)
    (st : Option Species × Option (Finset IV)),
    runSnaps env (none, none) snaps = .ok st →
    st.1 = Pokemon.speciesProp snaps ∧
    ∀ (sp sp' : Species) (os : Option Species) (s : Finset IV) (cp hp dust : Int) (n : Nat),
      stepSnap env (some sp, some s) (.powerUp cp hp dust n) =
        (advanceSet env s n).bind (fun adv =>
          (filterStep env (some sp) adv cp hp).map fun s' => (some sp, some s')) ∧
      stepSnap env (os, some s) (.evolution sp' cp hp dust n) =
        (advanceSet env s n).bind (fun adv =>
          (filterStep env (some sp') adv cp hp).map fun s' => (some sp', some s')) := by
  intro env snaps st h
  constructor
  · have hsp := runSnaps_species env snaps (none, none) st h
    rw [hsp]
    cases Pokemon.speciesProp snaps <;> rfl
  · intro sp sp' os s cp hp dust n
    exact ⟨stepSnap_powerUp_eq env (some sp) s cp hp dust n,
      stepSnap_evolution_eq env os s sp' cp hp dust n⟩

/-- Witness for the C5 theorem at a concrete input. -/
theorem species_sticky_filtering_witness :
    ((some sp0, some (∅ : Finset IV)) : Option Species × Option (Finset IV)).1 =
      Pokemon.speciesProp snaps3 ∧
    stepSnap env3 (some sp0, some (∅ : Finset IV)) (.powerUp 10 10 100 1) =
      (advanceSet env3 (∅ : Finset IV) 1).bind (fun adv =>
        (filterStep env3 (some sp0) adv 10 10).map fun s' => (some sp0, some s')) ∧
    stepSnap env3 (some sp0, some (∅ : Finset IV)) (.evolution sp0 10 10 100 1) =
      (advanceSet env3 (∅ : Finset IV) 1).bind (fun adv =>
        (filterStep env3 (some sp0) adv 10 10).map fun s' => (some sp0, some s')) := by
  have h := species_sticky_filtering env3 snaps3 (some sp0, some ∅) runSnaps_env3_eq
  exact ⟨h.1, (h.2 sp0 sp0 (some sp0) ∅ 10 10 100 1).1, (h.2 sp0 sp0 (some sp0) ∅ 10 10 100 1).2⟩

/-- C7: processing an event after the first (a non-start snapshot) never
grows the candidate set — the new set's size is at most the old one's —
and the appraisal filter never grows it either. -/
theorem candidate_set_nonincreasing : ∀ (env : Env) (os : Option Species) (s : Finset IV)
    (snap : Snapshot) (st' : Option Species × Option (Finset IV)) (a : Appraisal),
    (snap.isStart = false → stepSnap env (os, some s) snap = .ok st' →
      ∃ s', st'.2 = some s' ∧ s'.card ≤ s.card) ∧
    (s.filter fun iv => a.valid_iv iv = true).card ≤ s.card := by
  intro env os s snap st' a
  constructor
  · intro hns hstep
    cases snap with
    | start sp cp hp dust hl => simp [Snapshot.isStart] at hns
    | powerUp cp hp dust n =>
      rw [stepSnap_powerUp_eq] at hstep
      cases hadv : advanceSet env s n with
      | error e =>
        rw [hadv, ebind_error] at hstep
        cases hstep
      | ok adv =>
        rw [hadv, ebind_ok] at hstep
        cases hf : filterStep env os adv cp hp with
        | error e =>
          rw [hf, emap_error] at hstep
          cases hstep
        | ok s' =>
          rw [hf, emap_ok] at hstep
          injection hstep with h'
          refine ⟨s', by rw [← h'], ?_⟩
          exact le_trans (filterStep_ok_card env os adv cp hp s' hf)
            (advanceSet_ok_card env s n adv hadv)
    | evolution sp' cp hp dust n =>
      rw [stepSnap_evolution_eq] at hstep
      cases hadv : advanceSet env s n with
      | error e =>
        rw [hadv, ebind_error] at hstep
        cases hstep
      | ok adv =>
        rw [hadv, ebind_ok, filterStep_some_eq, emap_ok] at hstep
        injection hstep with h'
        refine ⟨obsFilter env sp' adv cp hp, by rw [← h'], ?_⟩
        exact le_trans (Finset.card_filter_le _ _) (advanceSet_ok_card env s n adv hadv)
  · exact Finset.card_filter_le _ _

/-- Witness for the C7 theorem at a concrete input. -/
theorem candidate_set_nonincreasing_witness :
    (∃ s', ((some sp0, some (∅ : Finset IV)) : Option Species × Option (Finset IV)).2 = some s' ∧
      s'.card ≤ (∅ : Finset IV).card) ∧
    ((∅ : Finset IV).filter fun iv => a0.valid_iv iv = true).card ≤ (∅ : Finset IV).card := by
  have h := candidate_set_nonincreasing env3 (some sp0) ∅ (.powerUp 10 10 100 1)
    (some sp0, some ∅) a0
  exact ⟨h.1 rfl (stepSnap_empty_powerUp env3 sp0 10 10 100 1), h.2⟩

/-- C8: given the final candidate set, `percentage_range` fails with the
`emptySet` error when the set is empty and otherwise returns the minimum
and maximum quality percentage over the set, as expressed by
`rangeResult`; in particular the empty case never yields a pair. -/
theorem percentage_range_matches_range : ∀ (env : Env) (snaps : List Snapshot)
    (app : Option Appraisal) (s : Finset IV),
    Pokemon.calc_ivs env snaps app = .ok s →
    Pokemon.percentage_range env snaps app = rangeResult s ∧
    (s = ∅ → Pokemon.percentage_range env snaps app = .error .emptySet) := by
  intro env snaps app s h
  have heq : Pokemon.percentage_range env snaps app = rangeResult s := by
    unfold Pokemon.percentage_range rangeResult
    rw [h]
  refine ⟨heq, ?_⟩
  intro hs
  subst hs
  rw [heq]
  unfold rangeResult
  rw [dif_neg]
  exact Finset.not_nonempty_empty

/-- Witness for the C8 theorem at a concrete input. -/
theorem percentage_range_matches_range_witness :
    Pokemon.calc_ivs env3 snaps3 none = .ok ∅ ∧
    Pokemon.percentage_range env3 snaps3 none = rangeResult ∅ ∧
    Pokemon.percentage_range env3 snaps3 none = .error .emptySet := by
  have h := percentage_range_matches_range env3 snaps3 none ∅ calc_ivs_env3_eq
  exact ⟨calc_ivs_env3_eq, h.1, h.2 rfl⟩
